import Mathlib

/-!
Verification of the theme-preference resolution and persistence subsystem of
the portfolio single-page application (`src/App.tsx`).

The subsystem is embedded shallowly:

* The cookie-string helpers `getCookie` / `setCookie` (App.tsx lines 22-30)
  are modelled over explicit cookie strings.  The JavaScript builtins
  `encodeURIComponent` / `decodeURIComponent` are modelled for code points
  below 128 (every theme value is ASCII).  The regular expression
  `(?:^|; )name=([^;]*)` of `getCookie` is modelled as a scan that matches
  `name=` at position 0 or directly after a `"; "` separator and captures
  characters up to the next `';'`; the name-escaping `replace` is the
  identity on the only name used, `theme`.  The dynamic `expires` date
  string is a parameter of the model.
* The resolver state (App.tsx lines 424-475) is a record `AppState` holding
  the two React state booleans `isDark` and `hasUserPref`, the decoded
  value of the durable `theme` cookie (`cookie`), the session-local store's
  `theme` entry (`localStore`), the document-wide `dark` class flag
  (`darkClass`), and the OS `prefers-color-scheme: dark` signal (`os`).
* The effect pipeline is modelled as: the initialization effect
  (`initTheme`, lines 429-443) runs once on the loaded storage, followed by
  the apply effect (`applyTheme`, lines 445-460); afterwards every event —
  a `toggleTheme` click (lines 462-465) or an OS media-query change
  handled by the listener (lines 468-475) — is followed by the apply
  effect (`stepEvent`).
-/

/-- Characters `encodeURIComponent` leaves unescaped:
alphanumerics and `- _ . ! ~ * ' ( )`. -/
def isUnreservedURIChar (c : Char) : Bool :=
  c.isAlphanum || c = '-' || c = '_' || c = '.' || c = '!' || c = '~' ||
    c = '*' || c = Char.ofNat 39 || c = '(' || c = ')'

/-- Uppercase hexadecimal digit for a value below 16. -/
def hexDigitChar (n : Nat) : Char :=
  if n < 10 then Char.ofNat (48 + n) else Char.ofNat (55 + n)

/-- Percent-encoding of a single character (single-byte code points). -/
def percentEncodeChar (c : Char) : List Char :=
  if isUnreservedURIChar c then [c]
  else ['%', hexDigitChar (c.toNat / 16), hexDigitChar (c.toNat % 16)]

/-- Model of the JavaScript builtin `encodeURIComponent`, restricted to
single-byte code points (all theme values are ASCII). -/
def encodeURIComponent (s : String) : String :=
  String.mk (s.data.map percentEncodeChar).flatten

/-- Numeric value of a hexadecimal digit character. -/
def hexDigitVal (c : Char) : Option Nat :=
  if 48 ≤ c.toNat ∧ c.toNat ≤ 57 then some (c.toNat - 48)
  else if 65 ≤ c.toNat ∧ c.toNat ≤ 70 then some (c.toNat - 55)
  else if 97 ≤ c.toNat ∧ c.toNat ≤ 102 then some (c.toNat - 87)
  else none

/-- Percent-decoding of a character list (single-byte code points). -/
def percentDecodeList : List Char → List Char
  | [] => []
  | '%' :: a :: b :: rest =>
    match hexDigitVal a, hexDigitVal b with
    | some x, some y => Char.ofNat (16 * x + y) :: percentDecodeList rest
    | _, _ => '%' :: percentDecodeList (a :: b :: rest)
  | c :: rest => c :: percentDecodeList rest

/-- Model of the JavaScript builtin `decodeURIComponent`, restricted to
single-byte code points. -/
def decodeURIComponent (s : String) : String :=
  String.mk (percentDecodeList s.data)

/-- Attempt of the cookie regular expression at the current position:
if the text starts with `name=`, captures the run of characters up to the
next `';'` (the `([^;]*)` group). -/
def cookieMatchAt (name l : List Char) : Option (List Char) :=
  if (name ++ ['=']).isPrefixOf l then
    some ((l.drop (name.length + 1)).takeWhile (fun c => c != ';'))
  else none

/-- Left-to-right scan for the first `"; name="` occurrence, the `; `
alternative of the `(?:^|; )` prefix of the cookie regular expression. -/
def cookieFindAux (name : List Char) : List Char → Option (List Char)
  | [] => none
  | c :: rest =>
    if c = ';' then
      match rest with
      | d :: rest2 =>
        if d = ' ' then
          match cookieMatchAt name rest2 with
          | some v => some v
          | none => cookieFindAux name rest
        else cookieFindAux name rest
      | [] => none
    else cookieFindAux name rest

/-- Embedding of `getCookie` (App.tsx lines 22-25): finds the leftmost
match of `(?:^|; )name=([^;]*)` in the cookie string and percent-decodes
the captured group; `none` models the `null` return. -/
def getCookie (name cookieStr : String) : Option String :=
  match cookieMatchAt name.data cookieStr.data with
  | some v => some (String.mk (percentDecodeList v))
  | none =>
    match cookieFindAux name.data cookieStr.data with
    | some v => some (String.mk (percentDecodeList v))
    | none => none

/-- Embedding of `setCookie` (App.tsx lines 26-30): the string assigned to
`document.cookie`.  The formatted expiry date (`date.toUTCString()`) is the
parameter `expires`. -/
def setCookie (name value expires : String) : String :=
  name ++ "=" ++ encodeURIComponent value ++ "; expires=" ++ expires ++
    "; path=/; SameSite=Lax"

/-- Default of the `days` parameter of `setCookie`. -/
def setCookieDefaultDays : Nat := 365

/-- Expiry instant computed by `setCookie`:
`date.getTime() + days * 24 * 60 * 60 * 1000` milliseconds. -/
def cookieExpiryTimeMs (nowMs days : Nat) : Nat :=
  nowMs + days * 24 * 60 * 60 * 1000

/-- State of the theme resolver: the two React state booleans, the decoded
durable-cookie value, the session-local store's `theme` entry, the
document-wide `dark` class flag, and the OS signal. -/
structure AppState where
  isDark : Bool
  hasUserPref : Bool
  cookie : Option String
  localStore : Option String
  darkClass : Bool
  os : Bool
  deriving Repr, DecidableEq

/-- JavaScript `a || b` on nullable strings: `a` wins unless it is `null`
or the empty string (falsy). -/
def jsOr (a b : Option String) : Option String :=
  match a with
  | some s => if s = "" then b else some s
  | none => b

/-- Embedding of the initialization effect (App.tsx lines 429-443):
`const cookieTheme = getCookie('theme') || localStorage.getItem('theme')`;
`light`/`dark` select the explicit mode, anything else selects the
adaptive mode, mirrors the OS signal and writes `system` to the cookie. -/
def initTheme (s : AppState) : AppState :=
  if jsOr s.cookie s.localStore = some "dark" ∨ jsOr s.cookie s.localStore = some "light" then
    { s with isDark := jsOr s.cookie s.localStore == some "dark", hasUserPref := true }
  else
    { s with isDark := s.os, hasUserPref := false, cookie := some "system" }

/-- Embedding of the apply effect (App.tsx lines 445-460): sets the
document `dark` class to `isDark`; with an explicit preference writes
`dark`/`light` to both stores, otherwise writes `system` to the cookie and
removes the session-local entry. -/
def applyTheme (s : AppState) : AppState :=
  if s.hasUserPref then
    { s with darkClass := s.isDark,
             localStore := some (if s.isDark then "dark" else "light"),
             cookie := some (if s.isDark then "dark" else "light") }
  else
    { s with darkClass := s.isDark, cookie := some "system", localStore := none }

/-- Embedding of `toggleTheme` (App.tsx lines 462-465). -/
def toggleTheme (s : AppState) : AppState :=
  { s with hasUserPref := true, isDark := !s.isDark }

/-- Embedding of the OS-change listener body (App.tsx lines 468-475) for a
media-query change reporting `b`: the signal becomes `b`, and `isDark`
follows it only when no explicit preference is set. -/
def osChange (b : Bool) (s : AppState) : AppState :=
  if s.hasUserPref then { s with os := b } else { s with os := b, isDark := b }

/-- Events the resolver reacts to after initialization. -/
inductive Event where
  | toggle : Event
  | osChange : Bool → Event
  deriving Repr, DecidableEq

/-- One event handler followed by the apply effect. -/
def stepEvent : Event → AppState → AppState
  | Event.toggle, s => applyTheme (toggleTheme s)
  | Event.osChange b, s => applyTheme (osChange b s)

/-- A sequence of events processed in order. -/
def runEvents (s : AppState) (es : List Event) : AppState :=
  es.foldl (fun t e => stepEvent e t) s

/-- The pre-initialization state of a page load (App.tsx lines 424-427):
`useState(false)` for both booleans, no `dark` class on the document,
storage and OS signal as the environment provides them. -/
def initialAppState (cookie localStore : Option String) (os : Bool) : AppState :=
  { isDark := false, hasUserPref := false, cookie := cookie,
    localStore := localStore, darkClass := false, os := os }

/-- A completed page load: initialization effect followed by the apply
effect on the pre-initialization state. -/
def pageLoad (cookie localStore : Option String) (os : Bool) : AppState :=
  applyTheme (initTheme (initialAppState cookie localStore os))

/-- Storage-consistency invariant of the spec: `hasUserPref` holds exactly
when the durable cookie reads `light` or `dark` with a matching
session-local value; in adaptive mode the cookie reads `system`, the
session-local store is empty and `isDark` mirrors the OS signal. -/
def storageInvariant (s : AppState) : Prop :=
  (s.hasUserPref = true ↔
    ((s.cookie = some "light" ∨ s.cookie = some "dark") ∧ s.localStore = s.cookie)) ∧
  (s.hasUserPref = false → (s.cookie = some "system" ∧ s.localStore = none ∧ s.isDark = s.os))

/-- In adaptive mode `isDark` mirrors the OS signal. -/
def adaptiveConsistent (s : AppState) : Prop :=
  s.hasUserPref = false → s.isDark = s.os

lemma adaptiveConsistent_initTheme (s : AppState) : adaptiveConsistent (initTheme s) := by
  cases s with
  | mk d p c l k o =>
    unfold adaptiveConsistent initTheme
    split <;> simp

lemma adaptiveConsistent_toggleTheme (s : AppState) : adaptiveConsistent (toggleTheme s) := by
  cases s with
  | mk d p c l k o => simp [adaptiveConsistent, toggleTheme]

lemma adaptiveConsistent_osChange (b : Bool) (s : AppState) :
    adaptiveConsistent (osChange b s) := by
  cases s with
  | mk d p c l k o =>
    unfold adaptiveConsistent osChange
    cases p <;> simp

lemma storageInvariant_applyTheme (s : AppState) (h : adaptiveConsistent s) :
    storageInvariant (applyTheme s) := by
  cases s with
  | mk d p c l k o =>
    unfold adaptiveConsistent at h
    unfold storageInvariant applyTheme
    cases p with
    | true => cases d <;> simp
    | false => simp_all

lemma storageInvariant_runEvents (es : List Event) :
    ∀ s : AppState, adaptiveConsistent s → storageInvariant (runEvents (applyTheme s) es) := by
  induction es with
  | nil => intro s h; exact storageInvariant_applyTheme s h
  | cons e es ih =>
    intro s h
    cases e with
    | toggle =>
      show storageInvariant (runEvents (applyTheme (toggleTheme (applyTheme s))) es)
      exact ih _ (adaptiveConsistent_toggleTheme _)
    | osChange b =>
      show storageInvariant (runEvents (applyTheme (osChange b (applyTheme s))) es)
      exact ih _ (adaptiveConsistent_osChange b _)

lemma stepEvent_hasUserPref (e : Event) (s : AppState) (h : s.hasUserPref = true) :
    (stepEvent e s).hasUserPref = true := by
  cases s with
  | mk d p c l k o =>
    cases e with
    | toggle => cases d <;> simp [stepEvent, toggleTheme, applyTheme]
    | osChange b =>
      simp only [AppState.hasUserPref] at h
      subst h
      simp [stepEvent, osChange, applyTheme]

lemma runEvents_hasUserPref (es : List Event) :
    ∀ s : AppState, s.hasUserPref = true → (runEvents s es).hasUserPref = true := by
  induction es with
  | nil => intro s h; exact h
  | cons e es ih =>
    intro s h
    show (runEvents (stepEvent e s) es).hasUserPref = true
    exact ih _ (stepEvent_hasUserPref e s h)

lemma stepEvent_toggle_hasUserPref (s : AppState) :
    (stepEvent Event.toggle s).hasUserPref = true := by
  cases s with
  | mk d p c l k o => cases d <;> simp [stepEvent, toggleTheme, applyTheme]

lemma stepEvent_osChange_frozen (b : Bool) (s : AppState) (h : s.hasUserPref = true) :
    (stepEvent (Event.osChange b) s).isDark = s.isDark := by
  cases s with
  | mk d p c l k o =>
    simp only [AppState.hasUserPref] at h
    subst h
    simp [stepEvent, osChange, applyTheme]

/-- Claim C2: after every completed apply step — at page load and after any
sequence of toggle or OS-change events — the storage-consistency invariant
holds: `hasUserPref` is true exactly when the durable cookie's last-written
value is `light` or `dark` with a matching session-local value, and when
`hasUserPref` is false the cookie reads `system`, the session-local store
is empty, and `isDark` equals the OS signal. -/
theorem theme_storage_invariant (cookie localStore : Option String) (os : Bool)
    (es : List Event) :
    storageInvariant (runEvents (pageLoad cookie localStore os) es) :=
  storageInvariant_runEvents es (initTheme (initialAppState cookie localStore os))
    (adaptiveConsistent_initTheme _)

/-- Claim C3: the apply step sets the document-wide dark-mode flag to
`isDark`; with `hasUserPref = true` it writes the resolved `dark`/`light`
value to both the session-local store and the durable cookie, and with
`hasUserPref = false` it writes `system` to the durable cookie and removes
the session-local store's theme key; the runtime booleans are untouched. -/
theorem theme_apply_step (s : AppState) :
    (applyTheme s).darkClass = s.isDark ∧
    (applyTheme s).cookie =
      some (if s.hasUserPref then (if s.isDark then "dark" else "light") else "system") ∧
    (applyTheme s).localStore =
      (if s.hasUserPref then some (if s.isDark then "dark" else "light") else none) ∧
    (applyTheme s).isDark = s.isDark ∧
    (applyTheme s).hasUserPref = s.hasUserPref := by
  cases s with
  | mk d p c l k o => cases p <;> cases d <;> simp [applyTheme]

/-- Claim C5: `toggleTheme` needs no precondition, sets
`hasUserPref = true` and unconditionally flips `isDark`; two consecutive
toggle steps return `isDark` to its original value while `hasUserPref`
remains true throughout. -/
theorem theme_toggle_double (s : AppState) :
    (toggleTheme s).hasUserPref = true ∧
    (toggleTheme s).isDark = !s.isDark ∧
    (stepEvent Event.toggle s).hasUserPref = true ∧
    (stepEvent Event.toggle s).isDark = !s.isDark ∧
    (stepEvent Event.toggle (stepEvent Event.toggle s)).hasUserPref = true ∧
    (stepEvent Event.toggle (stepEvent Event.toggle s)).isDark = s.isDark := by
  cases s with
  | mk d p c l k o => cases d <;> simp [stepEvent, toggleTheme, applyTheme]

/-- Claim C6: after one toggle step, no later event sequence brings
`hasUserPref` back to false, and a subsequent OS-change event never alters
`isDark`: the explicit state is frozen against the OS. -/
theorem theme_explicit_freeze (s : AppState) (es : List Event) (b : Bool) :
    (runEvents (stepEvent Event.toggle s) es).hasUserPref = true ∧
    (stepEvent (Event.osChange b) (runEvents (stepEvent Event.toggle s) es)).isDark =
      (runEvents (stepEvent Event.toggle s) es).isDark := by
  have hp : (runEvents (stepEvent Event.toggle s) es).hasUserPref = true :=
    runEvents_hasUserPref es _ (stepEvent_toggle_hasUserPref s)
  exact ⟨hp, stepEvent_osChange_frozen b _ hp⟩

/-- Claim C7: while `hasUserPref = false`, an OS-change event reporting `b`
updates `isDark` to `b` and the document flag to `b`, and the apply step
writes `system` (not `dark`) to the durable cookie while leaving the
session-local store empty. -/
theorem theme_adaptive_tracking (s : AppState) (b : Bool)
    (h : s.hasUserPref = false) :
    (stepEvent (Event.osChange b) s).isDark = b ∧
    (stepEvent (Event.osChange b) s).cookie = some "system" ∧
    (stepEvent (Event.osChange b) s).localStore = none ∧
    (stepEvent (Event.osChange b) s).hasUserPref = false ∧
    (stepEvent (Event.osChange b) s).darkClass = b := by
  cases s with
  | mk d p c l k o =>
    simp only [AppState.hasUserPref] at h
    subst h
    simp [stepEvent, osChange, applyTheme]

/-- Witness for C7: the adaptive light state, on an OS change to dark,
renders dark and persists `system`. -/
theorem theme_adaptive_tracking_witness :
    (AppState.mk false false (some "system") none false false).hasUserPref = false ∧
    (stepEvent (Event.osChange true)
      (AppState.mk false false (some "system") none false false)).isDark = true ∧
    (stepEvent (Event.osChange true)
      (AppState.mk false false (some "system") none false false)).cookie = some "system" ∧
    (stepEvent (Event.osChange true)
      (AppState.mk false false (some "system") none false false)).localStore = none :=
  have h := theme_adaptive_tracking
    (AppState.mk false false (some "system") none false false) true rfl
  ⟨rfl, h.1, h.2.1, h.2.2.1⟩

/-- Claim C8: persist-then-reload round trip.  From a fresh session the
toggle step persists the explicit value to both stores, and re-running a
page load on the resulting storage restores the same `isDark` with
`hasUserPref = true`, for every value of the OS signal at reload time. -/
theorem theme_persist_reload_roundtrip (os os2 : Bool) :
    (stepEvent Event.toggle (pageLoad none none os)).cookie =
      some (if (stepEvent Event.toggle (pageLoad none none os)).isDark
            then "dark" else "light") ∧
    (stepEvent Event.toggle (pageLoad none none os)).localStore =
      some (if (stepEvent Event.toggle (pageLoad none none os)).isDark
            then "dark" else "light") ∧
    (pageLoad (stepEvent Event.toggle (pageLoad none none os)).cookie
        (stepEvent Event.toggle (pageLoad none none os)).localStore os2).isDark =
      (stepEvent Event.toggle (pageLoad none none os)).isDark ∧
    (pageLoad (stepEvent Event.toggle (pageLoad none none os)).cookie
        (stepEvent Event.toggle (pageLoad none none os)).localStore os2).hasUserPref =
      true := by
  cases os <;> cases os2 <;> decide

/-- Claim C10: before initialization runs, the runtime state defaults to
`isDark = false`, `hasUserPref = false` and no document dark flag, for
every stored preference and OS signal — the very first render of a page
load is always light mode. -/
theorem theme_default_first_render (cookie localStore : Option String) (os : Bool) :
    (initialAppState cookie localStore os).isDark = false ∧
    (initialAppState cookie localStore os).hasUserPref = false ∧
    (initialAppState cookie localStore os).darkClass = false :=
  ⟨rfl, rfl, rfl⟩

/-- Claim C1: initialization resolves in priority order cookie, then
session-local store, then OS signal.  A non-empty durable-cookie value wins
the resolution outright; with the cookie absent the session-local value is
the resolved value; a resolved `dark` or `light` sets `isDark` accordingly
with `hasUserPref = true`; any other resolved value (missing or `system`)
sets `isDark` to the OS signal, `hasUserPref = false`, and writes `system`
to the durable cookie. -/
theorem theme_init_priority (cookie localStore : Option String) (os : Bool) (v : String) :
    (cookie = some v → v ≠ "" → jsOr cookie localStore = some v) ∧
    (jsOr none localStore = localStore) ∧
    (jsOr cookie localStore = some "dark" →
      (initTheme (initialAppState cookie localStore os)).isDark = true ∧
      (initTheme (initialAppState cookie localStore os)).hasUserPref = true) ∧
    (jsOr cookie localStore = some "light" →
      (initTheme (initialAppState cookie localStore os)).isDark = false ∧
      (initTheme (initialAppState cookie localStore os)).hasUserPref = true) ∧
    (jsOr cookie localStore ≠ some "dark" → jsOr cookie localStore ≠ some "light" →
      (initTheme (initialAppState cookie localStore os)).isDark = os ∧
      (initTheme (initialAppState cookie localStore os)).hasUserPref = false ∧
      (initTheme (initialAppState cookie localStore os)).cookie = some "system") := by
  refine ⟨?_, rfl, ?_, ?_, ?_⟩
  · intro hc hv
    simp [jsOr, hc, hv]
  · intro h
    simp [initTheme, initialAppState, h]
  · intro h
    simp [initTheme, initialAppState, h]
  · intro h1 h2
    simp [initTheme, initialAppState, h1, h2]

/-- Witness for C1: a cookie reading `dark` beats a session-local `light`
and initializes the explicit dark state. -/
theorem theme_init_priority_witness :
    jsOr (some "dark") (some "light") = some "dark" ∧
    (initTheme (initialAppState (some "dark") (some "light") false)).isDark = true ∧
    (initTheme (initialAppState (some "dark") (some "light") false)).hasUserPref = true :=
  have H := theme_init_priority (some "dark") (some "light") false "dark"
  have hg : jsOr (some "dark") (some "light") = some "dark" := H.1 rfl (by decide)
  have hc := H.2.2.1 hg
  ⟨hg, hc.1, hc.2⟩

/-- Counterexample to C4 as stated: with the durable cookie holding the
malformed value `bogus` and the session-local store holding `dark`,
initialization does not fall through to the session-local store — it lands
in the adaptive branch (`hasUserPref = false`, light under a light OS) —
whereas with the cookie genuinely absent the same session-local store
yields the explicit dark state.  The malformed-cookie run therefore does
not behave identically to the no-cookie run. -/
theorem theme_malformed_fallthrough_counterexample :
    (initTheme (initialAppState (some "bogus") (some "dark") false)).hasUserPref = false ∧
    (initTheme (initialAppState (some "bogus") (some "dark") false)).isDark = false ∧
    (initTheme (initialAppState none (some "dark") false)).hasUserPref = true ∧
    (initTheme (initialAppState none (some "dark") false)).isDark = true := by
  decide

/-- Claim C4 amended: a malformed stored theme value is never a crash
condition; initialization with a malformed non-empty durable-cookie value
resolves to the adaptive default exactly as the `system`/no-preference case
(`isDark` = OS signal, `hasUserPref = false`, `system` written to the
cookie) without consulting the session-local store, and a malformed
session-local value under an absent cookie likewise resolves to the
adaptive default. -/
theorem theme_malformed_adaptive (v : String) (localStore : Option String) (os : Bool)
    (h1 : v ≠ "light") (h2 : v ≠ "dark") (h3 : v ≠ "") :
    (initTheme (initialAppState (some v) localStore os)).isDark = os ∧
    (initTheme (initialAppState (some v) localStore os)).hasUserPref = false ∧
    (initTheme (initialAppState (some v) localStore os)).cookie = some "system" ∧
    (∀ w : String, w ≠ "light" → w ≠ "dark" →
      (initTheme (initialAppState none (some w) os)).isDark = os ∧
      (initTheme (initialAppState none (some w) os)).hasUserPref = false) := by
  have hr : jsOr (some v) localStore = some v := by simp [jsOr, h3]
  refine ⟨?_, ?_, ?_, ?_⟩
  · simp [initTheme, initialAppState, hr, h1, h2]
  · simp [initTheme, initialAppState, hr, h1, h2]
  · simp [initTheme, initialAppState, hr, h1, h2]
  · intro w hw1 hw2
    have hrw : jsOr none (some w) = some w := rfl
    constructor
    · simp [initTheme, initialAppState, hrw, hw1, hw2]
    · simp [initTheme, initialAppState, hrw, hw1, hw2]

/-- Witness for the amended C4: the malformed cookie value `bogus` over a
session-local `dark` yields the adaptive state mirroring a dark OS, and
the malformed session-local value `junk` under an absent cookie does the
same. -/
theorem theme_malformed_adaptive_witness :
    (initTheme (initialAppState (some "bogus") (some "dark") true)).isDark = true ∧
    (initTheme (initialAppState (some "bogus") (some "dark") true)).hasUserPref = false ∧
    (initTheme (initialAppState (some "bogus") (some "dark") true)).cookie = some "system" ∧
    (initTheme (initialAppState none (some "junk") true)).isDark = true ∧
    (initTheme (initialAppState none (some "junk") true)).hasUserPref = false :=
  have H := theme_malformed_adaptive "bogus" (some "dark") true
    (by decide) (by decide) (by decide)
  have HW := H.2.2.2 "junk" (by decide) (by decide)
  ⟨H.1, H.2.1, H.2.2.1, HW.1, HW.2⟩

lemma isPrefixOf_append_self (l₁ l₂ : List Char) : l₁.isPrefixOf (l₁ ++ l₂) = true := by
  induction l₁ with
  | nil => simp [List.isPrefixOf]
  | cons a t ih => simp [List.isPrefixOf, ih]

lemma takeWhile_until_semi (val tail : List Char)
    (h : val.all (fun c => c != ';') = true) :
    (val ++ ';' :: tail).takeWhile (fun c => c != ';') = val := by
  induction val with
  | nil => simp [List.takeWhile_cons]
  | cons a t ih =>
    simp only [List.all_cons, Bool.and_eq_true] at h
    simp [List.takeWhile_cons, h.1, ih h.2]

lemma cookieMatchAt_here (name val tail : List Char)
    (h : val.all (fun c => c != ';') = true) :
    cookieMatchAt name (name ++ '=' :: val ++ ';' :: tail) = some val := by
  have hshape : name ++ '=' :: val ++ ';' :: tail =
      (name ++ ['=']) ++ (val ++ ';' :: tail) := by simp
  rw [cookieMatchAt, hshape, isPrefixOf_append_self]
  have hdrop : ((name ++ ['=']) ++ (val ++ ';' :: tail)).drop (name.length + 1) =
      val ++ ';' :: tail := by
    have hlen : name.length + 1 = (name ++ ['=']).length := by simp
    rw [hlen, List.drop_left]
  simp [hdrop, takeWhile_until_semi val tail h]

lemma getCookie_setCookie_value (v expires : String)
    (hsemi : v.data.all (fun c => c != ';') = true)
    (henc : encodeURIComponent v = v)
    (hdec : percentDecodeList v.data = v.data) :
    getCookie "theme" (setCookie "theme" v expires) = some v := by
  have h1 : "=".data = ['='] := by decide
  have h2 : "; expires=".data = ';' :: " expires=".data := by decide
  have hdata : (setCookie "theme" v expires).data =
      "theme".data ++ '=' :: v.data ++ ';' ::
        (" expires=".data ++ expires.data ++ "; path=/; SameSite=Lax".data) := by
    rw [setCookie, henc]
    simp [String.data_append, h1, h2]
  have hmatch := cookieMatchAt_here "theme".data v.data
    (" expires=".data ++ expires.data ++ "; path=/; SameSite=Lax".data) hsemi
  unfold getCookie
  rw [hdata, hmatch]
  simp [hdec]

/-- Claim C9: for every theme value, `setCookie` produces the `theme=`
cookie string carrying the percent-encoded value with the `expires`,
`path=/` and `SameSite=Lax` attributes, the default expiry is 365 days in
milliseconds past the current time, and `getCookie` on the resulting
string percent-decodes and returns exactly the written value. -/
theorem theme_cookie_roundtrip (v expires : String)
    (hv : v = "light" ∨ v = "dark" ∨ v = "system") :
    getCookie "theme" (setCookie "theme" v expires) = some v ∧
    (setCookie "theme" v expires).data =
      "theme=".data ++ (encodeURIComponent v).data ++ "; expires=".data ++
        expires.data ++ "; path=/; SameSite=Lax".data ∧
    (∀ now : Nat, cookieExpiryTimeMs now setCookieDefaultDays =
      now + 365 * 24 * 60 * 60 * 1000) := by
  refine ⟨?_, ?_, fun now => rfl⟩
  · rcases hv with rfl | rfl | rfl
    · exact getCookie_setCookie_value _ expires (by decide) (by decide) (by decide)
    · exact getCookie_setCookie_value _ expires (by decide) (by decide) (by decide)
    · exact getCookie_setCookie_value _ expires (by decide) (by decide) (by decide)
  · have h1 : "=".data = ['='] := by decide
    have h3 : "theme=".data = "theme".data ++ ['='] := by decide
    simp [setCookie, String.data_append, h1, h3]

/-- Witness for C9: writing `dark` with a concrete expiry date string and
reading it back returns `dark`. -/
theorem theme_cookie_roundtrip_witness :
    getCookie "theme" (setCookie "theme" "dark" "Fri, 01 Jan 2027 00:00:00 GMT") =
      some "dark" ∧
    cookieExpiryTimeMs 0 setCookieDefaultDays = 31536000000 :=
  have H := theme_cookie_roundtrip "dark" "Fri, 01 Jan 2027 00:00:00 GMT"
    (Or.inr (Or.inl rfl))
  ⟨H.1, H.2.2 0⟩
